import Mathlib

/-!
Shallow embedding of the Learnova AI backend (src/app.py), a Flask
application exposing upload, syllabus-ingestion, content-generation, chat
and health routes.

Modelling conventions:
- Python `str` values are Lean `String`; Python `len` and slicing act on
  code points, matched here by operating on `String.data` (a `List Char`).
- Python `str.lower` is modelled by `Char.toLower` on each character
  (ASCII case folding, which is all the allowed-extension check needs).
- The external collaborators (werkzeug `secure_filename`, `file.save`,
  `process_uploaded_file`, the `LearnovaAI` gateway, `datetime.now`) are
  inputs to each handler, packaged in an environment structure; fallible
  calls are `Except String _` (an `error` is a raised Python exception).
- A handler run yields an `HResult` (a returned HTTP response, or an
  exception that escaped the handler) together with the list of external
  side effects it performed (file writes, extraction, gateway calls).
- `request.json` is modelled as `Option` of a parsed body: `none` is the
  case where the request body is absent or not JSON (Flask yields `None`);
  calling `.get` on it raises `AttributeError`.
- werkzeug `FileStorage.__bool__` is `bool(self.filename)`, so the `file`
  truthiness test on line 42/74 of app.py is `filename` being non-empty.
-/

def emptyStr : String := ""

def slashStr : String := "/"

/-- Python `len(s)` (number of code points). -/
def pyLen (s : String) : Nat := s.data.length

/-- Python `s[:n]` (first `n` code points). -/
def pySliceTo (s : String) (n : Nat) : String := String.mk (s.data.take n)

/-- Python `'.' in s`. -/
def containsDot (s : String) : Bool := s.data.contains (Char.ofNat 46)

/-- Python `s.lower()` (ASCII case folding). -/
def strLower (s : String) : String := String.mk (s.data.map Char.toLower)

/-- app.py line 18: the allowed upload extensions. -/
def ALLOWED_EXTENSIONS : List String :=
  [r"txt", r"pdf", r"doc", r"docx", r"jpg", r"jpeg", r"png"]

/-- Python `s.rsplit(sep, 1)` for a one-character separator: split at the
last occurrence of `sep` if there is one, else return `[s]`. -/
def rsplit1 (sep : Char) (s : String) : List String :=
  if s.data.contains sep then
    [String.mk ((((s.data.reverse).dropWhile (fun c => c != sep)).tail).reverse),
     String.mk (((s.data.reverse).takeWhile (fun c => c != sep)).reverse)]
  else [s]

/-- app.py lines 20-21:
`return '.' in filename and filename.rsplit('.', 1)[1].lower() in ALLOWED_EXTENSIONS`. -/
def allowed_file (filename : String) : Bool :=
  containsDot filename &&
    ALLOWED_EXTENSIONS.contains (strLower ((rsplit1 (Char.ofNat 46) filename).getD 1 emptyStr))

/-- Written from the spec sentence, for comparison with `allowed_file`:
the substring of `s` after the last dot. -/
def specSuffixAfterLastDot (s : String) : String :=
  String.mk (((s.data.reverse).takeWhile (fun c => c != Char.ofNat 46)).reverse)

/-- Written from the spec sentence, for comparison with `allowed_file`:
a filename is allowed iff it contains at least one dot and the lowercased
substring after the last dot is one of the allowed extensions. -/
def spec_isAllowed (f : String) : Bool :=
  containsDot f && ALLOWED_EXTENSIONS.contains (strLower (specSuffixAfterLastDot f))

/-- JSON leaf values appearing in this app's response bodies. -/
inductive JVal where
  | s (v : String)
  | b (v : Bool)
deriving DecidableEq, Repr

/-- An HTTP response: status code and a flat JSON object body,
fields in serialization order. -/
structure HttpResp where
  status : Nat
  body : List (String × JVal)
deriving DecidableEq, Repr

/-- The outcome at the handler boundary: a returned response, or an
exception that propagated out of the handler uncaught. -/
inductive HResult where
  | resp (r : HttpResp)
  | raised (e : String)
deriving DecidableEq, Repr

def kError : String := "error"
def kSuccess : String := "success"
def kFilename : String := "filename"
def kContent : String := "content"
def kMessage : String := "message"
def kPreview : String := "preview"
def kStatus : String := "status"
def kContentType : String := "content_type"
def kResponse : String := "response"

def jerror (msg : String) : List (String × JVal) := [(kError, JVal.s msg)]

/-- Look a field up in a response body. -/
def lookupField : List (String × JVal) → String → Option JVal
  | [], _ => none
  | (k, v) :: rest, key => if k = key then some v else lookupField rest key

/-- app.py line 84-88 metadata dict attached to a syllabus upload. -/
structure SyllabusMetadata where
  education_level : String
  subject : String
  upload_date : String
deriving DecidableEq, Repr

/-- External side effects a handler can perform, in order. -/
inductive Effect where
  | save (path : String)
  | extract (path : String)
  | addSyllabus (name : String) (text : String) (meta : SyllabusMetadata)
  | generate (topic : String) (level : String) (reference : String) (ctype : String)
  | chatCall (question : String) (level : String) (ctx : String)
deriving DecidableEq, Repr

/-- A handler run: its boundary result plus the effects performed. -/
structure HandlerOut where
  result : HResult
  effects : List Effect
deriving DecidableEq, Repr

/-- app.py line 11: `app.config['UPLOAD_FOLDER'] = 'static/uploads/'`. -/
def UPLOAD_FOLDER : String := "static/uploads/"

/-- POSIX `os.path.join` on two components (app.py lines 44 and 76). -/
def ospathJoin (a b : String) : String :=
  if b.data.head? = some (Char.ofNat 47) then b
  else if a = emptyStr || a.data.getLast? = some (Char.ofNat 47) then a ++ b
  else a ++ slashStr ++ b

/-- `text[:n] + "..." if len(text) > n else text` (app.py lines 53 and 99). -/
def truncateWithEllipsis (n : Nat) (t : String) : String :=
  if pyLen t > n then pySliceTo t n ++ "..." else t

def defEducationLevel : String := "high_school"
def defSubject : String := "general"
def defContentType : String := "explanation"

def msgNoFileUploaded : String := "No file uploaded"
def msgNoFileSelected : String := "No file selected"
def msgInvalidFileType : String := "Invalid file type"
def msgFileProcessed : String := "File processed successfully"
def msgErrProcessingFile : String := "Error processing file: "
def msgErrProcessingSyllabus : String := "Error processing syllabus: "
def msgSyllabusEmbedded : String := "Syllabus material embedded successfully"
def msgFailedSyllabus : String := "Failed to process syllabus material"
def msgTopicRequired : String := "Topic is required"
def msgQuestionRequired : String := "Question is required"
def msgErrGenerating : String := "Error generating content: "
def msgErrChat : String := "Error in chat: "
def msgHealthy : String := "healthy"
def msgRunning : String := "Learnova AI is running!"

/-- Raised by `data.get(...)` when `request.json` was `None`. -/
def msgNoneTypeGet : String := "AttributeError: NoneType has no attribute get"

/-- werkzeug `FileStorage` truthiness: `bool(self.filename)`. -/
def fileTruthy (filename : String) : Bool := filename != emptyStr

/-- A parsed multipart request to `/api/upload`: whether a `file` part is
present, its filename, and the optional `education_level` form field. -/
structure UploadReq where
  hasFilePart : Bool
  filename : String
  education_level : Option String
deriving DecidableEq, Repr

/-- External collaborators used by `/api/upload`: werkzeug
`secure_filename`, `file.save` at a path, `process_uploaded_file`. -/
structure UploadEnv where
  sanitize : String → String
  save : String → Except String Unit
  extract : String → Except String String

def uploadSuccessBody (filename content : String) : List (String × JVal) :=
  [(kSuccess, JVal.b true), (kFilename, JVal.s filename),
   (kContent, JVal.s content), (kMessage, JVal.s msgFileProcessed)]

/-- app.py lines 31-59, handler `upload_file` for `POST /api/upload`.
Note that `file.save(filepath)` on line 45 sits outside the `try` block:
a failure there escapes the handler. -/
def upload_file (env : UploadEnv) (req : UploadReq) : HandlerOut :=
  if req.hasFilePart = false then
    ⟨HResult.resp ⟨400, jerror msgNoFileUploaded⟩, []⟩
  else
    let _education_level := (req.education_level).getD defEducationLevel
    if req.filename = emptyStr then
      ⟨HResult.resp ⟨400, jerror msgNoFileSelected⟩, []⟩
    else if fileTruthy req.filename && allowed_file req.filename then
      let filename := env.sanitize req.filename
      let filepath := ospathJoin UPLOAD_FOLDER filename
      match env.save filepath with
      | Except.error e => ⟨HResult.raised e, []⟩
      | Except.ok _ =>
        match env.extract filepath with
        | Except.ok t =>
          ⟨HResult.resp ⟨200, uploadSuccessBody filename (truncateWithEllipsis 1000 t)⟩,
           [Effect.save filepath, Effect.extract filepath]⟩
        | Except.error e =>
          ⟨HResult.resp ⟨500, jerror (msgErrProcessingFile ++ e)⟩,
           [Effect.save filepath, Effect.extract filepath]⟩
    else
      ⟨HResult.resp ⟨400, jerror msgInvalidFileType⟩, []⟩

/-- A parsed multipart request to `/api/syllabus/upload`. -/
structure SyllabusReq where
  hasFilePart : Bool
  filename : String
  education_level : Option String
  subject : Option String
deriving DecidableEq, Repr

/-- External collaborators used by `/api/syllabus/upload`; `nowIso` is
`datetime.now().isoformat()` and `addSyllabus` is
`learnova_ai.ai_processor.add_syllabus_materials`. -/
structure SyllabusEnv where
  sanitize : String → String
  save : String → Except String Unit
  extract : String → Except String String
  addSyllabus : String → String → SyllabusMetadata → Except String Bool
  nowIso : String

def syllabusTag : String := "syllabus_"

def syllabusSuccessBody (filename preview : String) : List (String × JVal) :=
  [(kSuccess, JVal.b true), (kFilename, JVal.s filename),
   (kMessage, JVal.s msgSyllabusEmbedded), (kPreview, JVal.s preview)]

/-- app.py lines 61-107, handler `upload_syllabus` for
`POST /api/syllabus/upload`. The stored path uses `f"syllabus_{filename}"`
(line 76) while the gateway call and the response use the unprefixed
`filename` (lines 90-97); `file.save` (line 77) is outside the `try`. -/
def upload_syllabus (env : SyllabusEnv) (req : SyllabusReq) : HandlerOut :=
  if req.hasFilePart = false then
    ⟨HResult.resp ⟨400, jerror msgNoFileUploaded⟩, []⟩
  else
    let education_level := (req.education_level).getD defEducationLevel
    let subject := (req.subject).getD defSubject
    if req.filename = emptyStr then
      ⟨HResult.resp ⟨400, jerror msgNoFileSelected⟩, []⟩
    else if fileTruthy req.filename && allowed_file req.filename then
      let filename := env.sanitize req.filename
      let filepath := ospathJoin UPLOAD_FOLDER (syllabusTag ++ filename)
      match env.save filepath with
      | Except.error e => ⟨HResult.raised e, []⟩
      | Except.ok _ =>
        match env.extract filepath with
        | Except.error e =>
          ⟨HResult.resp ⟨500, jerror (msgErrProcessingSyllabus ++ e)⟩,
           [Effect.save filepath, Effect.extract filepath]⟩
        | Except.ok t =>
          let meta : SyllabusMetadata := ⟨education_level, subject, env.nowIso⟩
          match env.addSyllabus filename t meta with
          | Except.error e =>
            ⟨HResult.resp ⟨500, jerror (msgErrProcessingSyllabus ++ e)⟩,
             [Effect.save filepath, Effect.extract filepath,
              Effect.addSyllabus filename t meta]⟩
          | Except.ok true =>
            ⟨HResult.resp ⟨200, syllabusSuccessBody filename (truncateWithEllipsis 500 t)⟩,
             [Effect.save filepath, Effect.extract filepath,
              Effect.addSyllabus filename t meta]⟩
          | Except.ok false =>
            ⟨HResult.resp ⟨500, jerror msgFailedSyllabus⟩,
             [Effect.save filepath, Effect.extract filepath,
              Effect.addSyllabus filename t meta]⟩
    else
      ⟨HResult.resp ⟨400, jerror msgInvalidFileType⟩, []⟩

/-- The JSON body of a `/api/generate-content` request, fields as read by
`data.get` on app.py lines 124-127. -/
structure ContentBody where
  topic : Option String
  education_level : Option String
  reference_material : Option String
  content_type : Option String
deriving DecidableEq, Repr

/-- External collaborator of `/api/generate-content`:
`learnova_ai.generate_content`. -/
structure GenEnv where
  generate : String → String → String → String → Except String String

/-- app.py lines 121-147, handler `generate_content` for
`POST /api/generate-content`. `request.json` is `none` when the body is
absent or not JSON; `data.get` on it raises before any validation. -/
def generate_content (env : GenEnv) (body : Option ContentBody) : HandlerOut :=
  match body with
  | none => ⟨HResult.raised msgNoneTypeGet, []⟩
  | some data =>
    let education_level := (data.education_level).getD defEducationLevel
    let reference_material := (data.reference_material).getD emptyStr
    let content_type := (data.content_type).getD defContentType
    match data.topic with
    | none => ⟨HResult.resp ⟨400, jerror msgTopicRequired⟩, []⟩
    | some tp =>
      if tp = emptyStr then ⟨HResult.resp ⟨400, jerror msgTopicRequired⟩, []⟩
      else
        match env.generate tp education_level reference_material content_type with
        | Except.ok result =>
          ⟨HResult.resp ⟨200, [(kSuccess, JVal.b true), (kContent, JVal.s result),
             (kContentType, JVal.s content_type)]⟩,
           [Effect.generate tp education_level reference_material content_type]⟩
        | Except.error e =>
          ⟨HResult.resp ⟨500, jerror (msgErrGenerating ++ e)⟩,
           [Effect.generate tp education_level reference_material content_type]⟩

/-- The JSON body of a `/api/chat` request (app.py lines 152-154). -/
structure ChatBody where
  question : Option String
  education_level : Option String
  context : Option String
deriving DecidableEq, Repr

/-- External collaborator of `/api/chat`: `learnova_ai.chat`. -/
structure ChatEnv where
  chatCall : String → String → String → Except String String

/-- app.py lines 149-172, handler `chat` for `POST /api/chat`. -/
def chat (env : ChatEnv) (body : Option ChatBody) : HandlerOut :=
  match body with
  | none => ⟨HResult.raised msgNoneTypeGet, []⟩
  | some data =>
    let education_level := (data.education_level).getD defEducationLevel
    let ctx := (data.context).getD emptyStr
    match data.question with
    | none => ⟨HResult.resp ⟨400, jerror msgQuestionRequired⟩, []⟩
    | some q =>
      if q = emptyStr then ⟨HResult.resp ⟨400, jerror msgQuestionRequired⟩, []⟩
      else
        match env.chatCall q education_level ctx with
        | Except.ok r =>
          ⟨HResult.resp ⟨200, [(kSuccess, JVal.b true), (kResponse, JVal.s r)]⟩,
           [Effect.chatCall q education_level ctx]⟩
        | Except.error e =>
          ⟨HResult.resp ⟨500, jerror (msgErrChat ++ e)⟩,
           [Effect.chatCall q education_level ctx]⟩

/-- app.py lines 174-176, handler `health_check` for `GET /api/health`.
It takes the (arbitrary) state of the external services as a parameter
only to state that it ignores it: it calls nothing and always returns the
same body. -/
def health_check {α : Type} (externalState : α) : HandlerOut :=
  let _ := externalState
  ⟨HResult.resp ⟨200, [(kStatus, JVal.s msgHealthy), (kMessage, JVal.s msgRunning)]⟩, []⟩

/-- The stored path of an `/api/upload` request (app.py line 44). -/
def uploadPath (env : UploadEnv) (req : UploadReq) : String :=
  ospathJoin UPLOAD_FOLDER (env.sanitize req.filename)

/-- The stored path of an `/api/syllabus/upload` request (app.py line 76). -/
def syllabusPath (env : SyllabusEnv) (req : SyllabusReq) : String :=
  ospathJoin UPLOAD_FOLDER (syllabusTag ++ env.sanitize req.filename)

/-- The metadata dict built on app.py lines 84-88. -/
def syllabusMeta (env : SyllabusEnv) (req : SyllabusReq) : SyllabusMetadata :=
  ⟨(req.education_level).getD defEducationLevel, (req.subject).getD defSubject, env.nowIso⟩

/-! Concrete collaborator behaviours and inputs used to instantiate the
theorems below. -/

def idSanitize : String → String := fun s => s

def okSave : String → Except String Unit := fun _ => Except.ok ()

def failSave (e : String) : String → Except String Unit := fun _ => Except.error e

def okExtract (t : String) : String → Except String String := fun _ => Except.ok t

def failExtract (e : String) : String → Except String String := fun _ => Except.error e

def constAddSyllabus (b : Bool) : String → String → SyllabusMetadata → Except String Bool :=
  fun _ _ _ => Except.ok b

def failAddSyllabus (e : String) : String → String → SyllabusMetadata → Except String Bool :=
  fun _ _ _ => Except.error e

def tLong : String := String.mk (List.replicate 1500 (Char.ofNat 97))

def tShort : String := String.mk (List.replicate 500 (Char.ofNat 97))

def nowStamp : String := "2026-10-12T00:00:00"

def reqDoc : UploadReq := ⟨true, r"doc.txt", none⟩

def reqSyl : SyllabusReq := ⟨true, r"syll.pdf", none, none⟩

def envOkU : UploadEnv := ⟨idSanitize, okSave, okExtract tShort⟩

def envOkLong : UploadEnv := ⟨idSanitize, okSave, okExtract tLong⟩

def envSaveFailU : UploadEnv := ⟨idSanitize, failSave (r"disk full"), okExtract tShort⟩

def envExtractFailU : UploadEnv := ⟨idSanitize, okSave, failExtract (r"bad encoding")⟩

def envOkS : SyllabusEnv := ⟨idSanitize, okSave, okExtract tShort, constAddSyllabus true, nowStamp⟩

def envFalseS : SyllabusEnv := ⟨idSanitize, okSave, okExtract tShort, constAddSyllabus false, nowStamp⟩

def envSaveFailS : SyllabusEnv :=
  ⟨idSanitize, failSave (r"disk full"), okExtract tShort, constAddSyllabus true, nowStamp⟩

def envExtractFailS : SyllabusEnv :=
  ⟨idSanitize, okSave, failExtract (r"bad encoding"), constAddSyllabus true, nowStamp⟩

def envAddFailS : SyllabusEnv :=
  ⟨idSanitize, okSave, okExtract tShort, failAddSyllabus (r"vector store down"), nowStamp⟩

def envOkSLong : SyllabusEnv := ⟨idSanitize, okSave, okExtract tLong, constAddSyllabus true, nowStamp⟩

def okGen (res : String) : GenEnv := ⟨fun _ _ _ _ => Except.ok res⟩

/-- C1: `allowed_file f` is true iff `f` contains at least one dot and the
lowercased substring after the last dot is one of
txt, pdf, doc, docx, jpg, jpeg, png; in particular the empty string and
extensionless names are rejected, and the check is case-insensitive
(notes.TXT allowed, virus.exe and noext rejected). -/
theorem c1_allowed_file_correct :
    (∀ f : String,
      allowed_file f = true ↔
        containsDot f = true ∧ strLower (specSuffixAfterLastDot f) ∈ ALLOWED_EXTENSIONS) ∧
    allowed_file (r"notes.TXT") = true ∧
    allowed_file (r"virus.exe") = false ∧
    allowed_file (r"noext") = false ∧
    allowed_file emptyStr = false := by
  refine ⟨?_, by decide, by decide, by decide, by decide⟩
  intro f
  by_cases h : Char.ofNat 46 ∈ f.data
  · simp [allowed_file, rsplit1, containsDot, specSuffixAfterLastDot, h]
  · simp [allowed_file, containsDot, h]

/-- C8: `GET /api/health` returns HTTP 200 with exactly the body
status healthy, message Learnova AI is running, independent of the state
of any external service, and performs no external calls. -/
theorem c8_health_check :
    ∀ (α : Type) (s : α),
      health_check s =
        ⟨HResult.resp ⟨200, [(kStatus, JVal.s msgHealthy), (kMessage, JVal.s msgRunning)]⟩,
         []⟩ :=
  fun _ _ => rfl

/-- C9: the `/api/upload` handler reads `education_level` but never uses
it: two upload requests identical except for that form field produce
identical handler runs (same response and same effects). -/
theorem c9_upload_ignores_education_level (env : UploadEnv) (r1 r2 : UploadReq)
    (h1 : r1.hasFilePart = r2.hasFilePart) (h2 : r1.filename = r2.filename) :
    upload_file env r1 = upload_file env r2 := by
  obtain ⟨p1, f1, e1⟩ := r1
  obtain ⟨p2, f2, e2⟩ := r2
  simp only at h1 h2
  subst h1
  subst h2
  rfl

/-- C9 witness: two concrete upload requests differing only in
`education_level` get the same handler run. -/
theorem c9_upload_ignores_education_level_witness :
    upload_file envOkU ⟨true, r"doc.txt", none⟩ =
      upload_file envOkU ⟨true, r"doc.txt", some (r"primary")⟩ :=
  c9_upload_ignores_education_level envOkU _ _ rfl rfl

/-- C10: for `/api/generate-content` and `/api/chat`, when the request
body is absent or not JSON (`request.json` is `None`), the handler raises
on the null parse result before any validation or gateway call, producing
no JSON error response; any parsed body yields a normal response, so the
documented 400/500 mapping holds only under that precondition. -/
theorem c10_null_body_precondition :
    (∀ env : GenEnv, generate_content env none = ⟨HResult.raised msgNoneTypeGet, []⟩) ∧
    (∀ env : ChatEnv, chat env none = ⟨HResult.raised msgNoneTypeGet, []⟩) ∧
    (∀ (env : GenEnv) (d : ContentBody) (e : String),
      (generate_content env (some d)).result ≠ HResult.raised e) ∧
    (∀ (env : ChatEnv) (d : ChatBody) (e : String),
      (chat env (some d)).result ≠ HResult.raised e) := by
  refine ⟨fun _ => rfl, fun _ => rfl, ?_, ?_⟩
  · intro env d e
    obtain ⟨topic, el, rm, ct⟩ := d
    cases topic with
    | none => simp [generate_content]
    | some tp =>
      by_cases h : tp = emptyStr
      · simp [generate_content, h]
      · cases hg : env.generate tp (el.getD defEducationLevel) (rm.getD emptyStr)
            (ct.getD defContentType) <;>
          simp [generate_content, h, hg]
  · intro env d e
    obtain ⟨q, el, cx⟩ := d
    cases q with
    | none => simp [chat]
    | some qq =>
      by_cases h : qq = emptyStr
      · simp [chat, h]
      · cases hg : env.chatCall qq (el.getD defEducationLevel) (cx.getD emptyStr) <;>
          simp [chat, h, hg]

/-- C2: on both upload routes the checks run in order — missing file part
gives 400 No file uploaded, empty filename gives 400 No file selected,
disallowed extension gives 400 Invalid file type, each with no effects —
and any run that performed an effect (save/extract/gateway) had passed all
three checks. -/
theorem c2_validation_order :
    (∀ (env : UploadEnv) (req : UploadReq), req.hasFilePart = false →
      upload_file env req = ⟨HResult.resp ⟨400, jerror msgNoFileUploaded⟩, []⟩) ∧
    (∀ (env : UploadEnv) (req : UploadReq), req.hasFilePart = true → req.filename = emptyStr →
      upload_file env req = ⟨HResult.resp ⟨400, jerror msgNoFileSelected⟩, []⟩) ∧
    (∀ (env : UploadEnv) (req : UploadReq), req.hasFilePart = true → req.filename ≠ emptyStr →
      allowed_file req.filename = false →
      upload_file env req = ⟨HResult.resp ⟨400, jerror msgInvalidFileType⟩, []⟩) ∧
    (∀ (env : UploadEnv) (req : UploadReq), (upload_file env req).effects ≠ [] →
      req.hasFilePart = true ∧ req.filename ≠ emptyStr ∧ allowed_file req.filename = true) ∧
    (∀ (env : SyllabusEnv) (req : SyllabusReq), req.hasFilePart = false →
      upload_syllabus env req = ⟨HResult.resp ⟨400, jerror msgNoFileUploaded⟩, []⟩) ∧
    (∀ (env : SyllabusEnv) (req : SyllabusReq), req.hasFilePart = true → req.filename = emptyStr →
      upload_syllabus env req = ⟨HResult.resp ⟨400, jerror msgNoFileSelected⟩, []⟩) ∧
    (∀ (env : SyllabusEnv) (req : SyllabusReq), req.hasFilePart = true → req.filename ≠ emptyStr →
      allowed_file req.filename = false →
      upload_syllabus env req = ⟨HResult.resp ⟨400, jerror msgInvalidFileType⟩, []⟩) ∧
    (∀ (env : SyllabusEnv) (req : SyllabusReq), (upload_syllabus env req).effects ≠ [] →
      req.hasFilePart = true ∧ req.filename ≠ emptyStr ∧ allowed_file req.filename = true) := by
  refine ⟨?_, ?_, ?_, ?_, ?_, ?_, ?_, ?_⟩
  · intro env req h
    simp [upload_file, h]
  · intro env req h1 h2
    simp [upload_file, h1, h2]
  · intro env req h1 h2 h3
    simp [upload_file, h1, h2, h3]
  · intro env req h
    by_cases h1 : req.hasFilePart = true
    · by_cases h2 : req.filename = emptyStr
      · exact absurd (by simp [upload_file, h1, h2]) h
      · by_cases h3 : allowed_file req.filename = true
        · exact ⟨h1, h2, h3⟩
        · rw [Bool.not_eq_true] at h3
          exact absurd (by simp [upload_file, h1, h2, h3]) h
    · rw [Bool.not_eq_true] at h1
      exact absurd (by simp [upload_file, h1]) h
  · intro env req h
    simp [upload_syllabus, h]
  · intro env req h1 h2
    simp [upload_syllabus, h1, h2]
  · intro env req h1 h2 h3
    simp [upload_syllabus, h1, h2, h3]
  · intro env req h
    by_cases h1 : req.hasFilePart = true
    · by_cases h2 : req.filename = emptyStr
      · exact absurd (by simp [upload_syllabus, h1, h2]) h
      · by_cases h3 : allowed_file req.filename = true
        · exact ⟨h1, h2, h3⟩
        · rw [Bool.not_eq_true] at h3
          exact absurd (by simp [upload_syllabus, h1, h2, h3]) h
    · rw [Bool.not_eq_true] at h1
      exact absurd (by simp [upload_syllabus, h1]) h

/-- C2 witness: each of the three validation failures, on concrete
requests, produces the stated 400 response and no effects. -/
theorem c2_validation_order_witness :
    upload_file envOkU ⟨false, r"a.txt", none⟩ =
      ⟨HResult.resp ⟨400, jerror msgNoFileUploaded⟩, []⟩ ∧
    upload_file envOkU ⟨true, emptyStr, none⟩ =
      ⟨HResult.resp ⟨400, jerror msgNoFileSelected⟩, []⟩ ∧
    upload_file envOkU ⟨true, r"virus.exe", none⟩ =
      ⟨HResult.resp ⟨400, jerror msgInvalidFileType⟩, []⟩ ∧
    upload_syllabus envOkS ⟨true, r"virus.exe", none, none⟩ =
      ⟨HResult.resp ⟨400, jerror msgInvalidFileType⟩, []⟩ :=
  ⟨c2_validation_order.1 envOkU _ rfl,
   c2_validation_order.2.1 envOkU _ rfl rfl,
   c2_validation_order.2.2.1 envOkU _ rfl (by decide) (by decide),
   c2_validation_order.2.2.2.2.2.2.1 envOkS _ rfl (by decide) (by decide)⟩

/-- C3: on a successful `/api/upload` whose extraction returns text `t`,
the content field of the 200 response is `t` truncated at 1000
characters: when `len t > 1000` it is the first 1000 characters followed
by an ellipsis (total length exactly 1003), otherwise it is `t`
unchanged. -/
theorem c3_upload_truncation (env : UploadEnv) (req : UploadReq) (t : String)
    (h1 : req.hasFilePart = true) (h2 : req.filename ≠ emptyStr)
    (h3 : allowed_file req.filename = true)
    (h4 : env.save (uploadPath env req) = Except.ok ())
    (h5 : env.extract (uploadPath env req) = Except.ok t) :
    (upload_file env req).result =
      HResult.resp
        ⟨200, uploadSuccessBody (env.sanitize req.filename) (truncateWithEllipsis 1000 t)⟩ ∧
    lookupField (uploadSuccessBody (env.sanitize req.filename) (truncateWithEllipsis 1000 t))
        kContent = some (JVal.s (truncateWithEllipsis 1000 t)) ∧
    (pyLen t > 1000 →
      truncateWithEllipsis 1000 t = pySliceTo t 1000 ++ r"..." ∧
      pyLen (truncateWithEllipsis 1000 t) = 1003) ∧
    (pyLen t ≤ 1000 → truncateWithEllipsis 1000 t = t) := by
  rw [uploadPath] at h4 h5
  refine ⟨?_, ?_, ?_, ?_⟩
  · simp [upload_file, h1, h2, h3, h4, h5, fileTruthy]
  · simp [uploadSuccessBody, lookupField, kSuccess, kFilename, kContent]
  · intro hl
    have ht : truncateWithEllipsis 1000 t = pySliceTo t 1000 ++ r"..." := by
      simp [truncateWithEllipsis, hl]
    refine ⟨ht, ?_⟩
    rw [ht]
    show (pySliceTo t 1000 ++ (r"...")).data.length = 1003
    rw [String.data_append]
    show (t.data.take 1000 ++ ((r"...") : String).data).length = 1003
    rw [List.length_append, List.length_take]
    have h3 : ((r"...") : String).data.length = 3 := rfl
    rw [h3]
    simp only [pyLen] at hl
    omega
  · intro hl
    simp [truncateWithEllipsis]
    omega

set_option maxRecDepth 100000 in
/-- C3 witness: with extracted text of 1500 characters the content field
is the first 1000 characters plus an ellipsis, of length 1003; a
500-character text is returned unchanged. -/
theorem c3_upload_truncation_witness :
    (upload_file envOkLong reqDoc).result =
      HResult.resp ⟨200, uploadSuccessBody (envOkLong.sanitize reqDoc.filename)
        (truncateWithEllipsis 1000 tLong)⟩ ∧
    truncateWithEllipsis 1000 tLong = pySliceTo tLong 1000 ++ r"..." ∧
    pyLen (truncateWithEllipsis 1000 tLong) = 1003 ∧
    truncateWithEllipsis 1000 tShort = tShort := by
  have h := c3_upload_truncation envOkLong reqDoc tLong rfl (by decide) (by decide) rfl rfl
  have h2 := c3_upload_truncation envOkU reqDoc tShort rfl (by decide) (by decide) rfl rfl
  exact ⟨h.1, (h.2.2.1 (by decide)).1, (h.2.2.1 (by decide)).2, h2.2.2.2 (by decide)⟩

/-- C4 counterexample: a storage write failure in `file.save` is NOT
caught — on a valid upload request whose save fails, the handler run ends
with the exception escaping the handler boundary, not with any JSON
response. -/
theorem c4_save_failure_counterexample :
    upload_file envSaveFailU reqDoc = ⟨HResult.raised (r"disk full"), []⟩ ∧
    ¬ ∃ r : HttpResp, (upload_file envSaveFailU reqDoc).result = HResult.resp r := by
  have h1 : upload_file envSaveFailU reqDoc = ⟨HResult.raised (r"disk full"), []⟩ := by decide
  refine ⟨h1, ?_⟩
  rintro ⟨r, hr⟩
  rw [h1] at hr
  exact absurd hr (by simp)

/-- C4 (amended): on both upload routes, failures raised during
extraction, or by the gateway call on the syllabus route, are caught
inside the handler and converted to a JSON 500 error response; but a
storage write failure in `file.save`, which runs before the `try` block,
propagates past the handler boundary uncaught. -/
theorem c4_error_containment (envU : UploadEnv) (reqU : UploadReq)
    (envS : SyllabusEnv) (reqS : SyllabusReq) (e : String)
    (hU1 : reqU.hasFilePart = true) (hU2 : reqU.filename ≠ emptyStr)
    (hU3 : allowed_file reqU.filename = true)
    (hS1 : reqS.hasFilePart = true) (hS2 : reqS.filename ≠ emptyStr)
    (hS3 : allowed_file reqS.filename = true) :
    (envU.save (uploadPath envU reqU) = Except.error e →
      (upload_file envU reqU).result = HResult.raised e) ∧
    (envU.save (uploadPath envU reqU) = Except.ok () →
      envU.extract (uploadPath envU reqU) = Except.error e →
      (upload_file envU reqU).result =
        HResult.resp ⟨500, jerror (msgErrProcessingFile ++ e)⟩) ∧
    (envS.save (syllabusPath envS reqS) = Except.error e →
      (upload_syllabus envS reqS).result = HResult.raised e) ∧
    (envS.save (syllabusPath envS reqS) = Except.ok () →
      envS.extract (syllabusPath envS reqS) = Except.error e →
      (upload_syllabus envS reqS).result =
        HResult.resp ⟨500, jerror (msgErrProcessingSyllabus ++ e)⟩) ∧
    (∀ t : String, envS.save (syllabusPath envS reqS) = Except.ok () →
      envS.extract (syllabusPath envS reqS) = Except.ok t →
      envS.addSyllabus (envS.sanitize reqS.filename) t (syllabusMeta envS reqS) =
        Except.error e →
      (upload_syllabus envS reqS).result =
        HResult.resp ⟨500, jerror (msgErrProcessingSyllabus ++ e)⟩) := by
  refine ⟨?_, ?_, ?_, ?_, ?_⟩
  · intro hs
    rw [uploadPath] at hs
    simp [upload_file, hU1, hU2, hU3, fileTruthy, hs]
  · intro hs hx
    rw [uploadPath] at hs hx
    simp [upload_file, hU1, hU2, hU3, fileTruthy, hs, hx]
  · intro hs
    rw [syllabusPath] at hs
    simp [upload_syllabus, hS1, hS2, hS3, fileTruthy, hs]
  · intro hs hx
    rw [syllabusPath] at hs hx
    simp [upload_syllabus, hS1, hS2, hS3, fileTruthy, hs, hx]
  · intro t hs hx ha
    rw [syllabusPath] at hs hx
    rw [syllabusMeta] at ha
    simp [upload_syllabus, hS1, hS2, hS3, fileTruthy, hs, hx, ha]

/-- C4 witness: concrete save and extraction failures on both routes land
where the amended claim says — an escaped exception for save, a 500 JSON
response for extraction and for a raising gateway. -/
theorem c4_error_containment_witness :
    (upload_file envSaveFailU reqDoc).result = HResult.raised (r"disk full") ∧
    (upload_file envExtractFailU reqDoc).result =
      HResult.resp ⟨500, jerror (msgErrProcessingFile ++ r"bad encoding")⟩ ∧
    (upload_syllabus envSaveFailS reqSyl).result = HResult.raised (r"disk full") ∧
    (upload_syllabus envExtractFailS reqSyl).result =
      HResult.resp ⟨500, jerror (msgErrProcessingSyllabus ++ r"bad encoding")⟩ ∧
    (upload_syllabus envAddFailS reqSyl).result =
      HResult.resp ⟨500, jerror (msgErrProcessingSyllabus ++ r"vector store down")⟩ :=
  ⟨(c4_error_containment envSaveFailU reqDoc envSaveFailS reqSyl (r"disk full")
      rfl (by decide) (by decide) rfl (by decide) (by decide)).1 rfl,
   (c4_error_containment envExtractFailU reqDoc envExtractFailS reqSyl (r"bad encoding")
      rfl (by decide) (by decide) rfl (by decide) (by decide)).2.1 rfl rfl,
   (c4_error_containment envSaveFailU reqDoc envSaveFailS reqSyl (r"disk full")
      rfl (by decide) (by decide) rfl (by decide) (by decide)).2.2.1 rfl,
   (c4_error_containment envExtractFailU reqDoc envExtractFailS reqSyl (r"bad encoding")
      rfl (by decide) (by decide) rfl (by decide) (by decide)).2.2.2.1 rfl rfl,
   (c4_error_containment envSaveFailU reqDoc envAddFailS reqSyl (r"vector store down")
      rfl (by decide) (by decide) rfl (by decide) (by decide)).2.2.2.2 tShort rfl rfl rfl⟩

set_option maxRecDepth 100000 in
/-- C5 counterexample: on a successful syllabus upload of `syll.pdf` the
file is saved at `static/uploads/syllabus_syll.pdf`, yet the response
filename field and the gateway call use the unprefixed `syll.pdf` — the
stored name is not the name returned in the response. -/
theorem c5_stored_name_counterexample :
    (upload_syllabus envOkS reqSyl).effects.head? =
      some (Effect.save (r"static/uploads/syllabus_syll.pdf")) ∧
    (upload_syllabus envOkS reqSyl).result =
      HResult.resp ⟨200, syllabusSuccessBody (r"syll.pdf") tShort⟩ ∧
    Effect.addSyllabus (r"syll.pdf") tShort (syllabusMeta envOkS reqSyl) ∈
      (upload_syllabus envOkS reqSyl).effects ∧
    (r"syllabus_syll.pdf" : String) ≠ r"syll.pdf" := by decide

/-- C5 (amended): on a successful `POST /api/syllabus/upload` with
sanitized filename `n`, the file is written into the upload directory
under the name `syllabus_` + `n`, while the response filename field and
the name passed to the gateway `add_syllabus_materials` both are the
unprefixed `n`. -/
theorem c5_syllabus_naming (env : SyllabusEnv) (req : SyllabusReq) (t : String)
    (h1 : req.hasFilePart = true) (h2 : req.filename ≠ emptyStr)
    (h3 : allowed_file req.filename = true)
    (h4 : env.save (syllabusPath env req) = Except.ok ())
    (h5 : env.extract (syllabusPath env req) = Except.ok t)
    (h6 : env.addSyllabus (env.sanitize req.filename) t (syllabusMeta env req) =
      Except.ok true) :
    (upload_syllabus env req).effects =
      [Effect.save (syllabusPath env req), Effect.extract (syllabusPath env req),
       Effect.addSyllabus (env.sanitize req.filename) t (syllabusMeta env req)] ∧
    syllabusPath env req = ospathJoin UPLOAD_FOLDER (syllabusTag ++ env.sanitize req.filename) ∧
    (upload_syllabus env req).result =
      HResult.resp
        ⟨200, syllabusSuccessBody (env.sanitize req.filename) (truncateWithEllipsis 500 t)⟩ ∧
    lookupField (syllabusSuccessBody (env.sanitize req.filename) (truncateWithEllipsis 500 t))
        kFilename = some (JVal.s (env.sanitize req.filename)) := by
  rw [syllabusPath] at h4 h5
  rw [syllabusMeta] at h6
  refine ⟨?_, rfl, ?_, ?_⟩
  · simp [upload_syllabus, h1, h2, h3, fileTruthy, h4, h5, h6, syllabusPath, syllabusMeta]
  · simp [upload_syllabus, h1, h2, h3, fileTruthy, h4, h5, h6]
  · simp [syllabusSuccessBody, lookupField, kSuccess, kFilename]

set_option maxRecDepth 100000 in
/-- C5 witness: the amended naming claim instantiated on a concrete
successful syllabus upload. -/
theorem c5_syllabus_naming_witness :
    (upload_syllabus envOkS reqSyl).effects =
      [Effect.save (syllabusPath envOkS reqSyl), Effect.extract (syllabusPath envOkS reqSyl),
       Effect.addSyllabus (envOkS.sanitize reqSyl.filename) tShort (syllabusMeta envOkS reqSyl)] ∧
    syllabusPath envOkS reqSyl =
      ospathJoin UPLOAD_FOLDER (syllabusTag ++ envOkS.sanitize reqSyl.filename) ∧
    (upload_syllabus envOkS reqSyl).result =
      HResult.resp ⟨200, syllabusSuccessBody (envOkS.sanitize reqSyl.filename)
        (truncateWithEllipsis 500 tShort)⟩ ∧
    lookupField (syllabusSuccessBody (envOkS.sanitize reqSyl.filename)
        (truncateWithEllipsis 500 tShort)) kFilename =
      some (JVal.s (envOkS.sanitize reqSyl.filename)) :=
  c5_syllabus_naming envOkS reqSyl tShort rfl (by decide) (by decide) rfl rfl rfl

/-- C6: when validation and extraction succeed on
`POST /api/syllabus/upload`, a gateway return of false yields 500 with
body error Failed to process syllabus material, while a return of true
yields 200 with success, filename, message and a preview that is the
first 500 characters plus an ellipsis when the text is longer than 500,
else the full text. -/
theorem c6_gateway_failure (env : SyllabusEnv) (req : SyllabusReq) (t : String)
    (h1 : req.hasFilePart = true) (h2 : req.filename ≠ emptyStr)
    (h3 : allowed_file req.filename = true)
    (h4 : env.save (syllabusPath env req) = Except.ok ())
    (h5 : env.extract (syllabusPath env req) = Except.ok t) :
    (env.addSyllabus (env.sanitize req.filename) t (syllabusMeta env req) = Except.ok false →
      (upload_syllabus env req).result = HResult.resp ⟨500, jerror msgFailedSyllabus⟩) ∧
    (env.addSyllabus (env.sanitize req.filename) t (syllabusMeta env req) = Except.ok true →
      (upload_syllabus env req).result =
        HResult.resp
          ⟨200, syllabusSuccessBody (env.sanitize req.filename) (truncateWithEllipsis 500 t)⟩) ∧
    (pyLen t > 500 → truncateWithEllipsis 500 t = pySliceTo t 500 ++ r"...") ∧
    (pyLen t ≤ 500 → truncateWithEllipsis 500 t = t) := by
  rw [syllabusPath] at h4 h5
  refine ⟨?_, ?_, ?_, ?_⟩
  · intro h6
    rw [syllabusMeta] at h6
    simp [upload_syllabus, h1, h2, h3, fileTruthy, h4, h5, h6]
  · intro h6
    rw [syllabusMeta] at h6
    simp [upload_syllabus, h1, h2, h3, fileTruthy, h4, h5, h6]
  · intro hl
    simp [truncateWithEllipsis, hl]
  · intro hl
    simp [truncateWithEllipsis]
    omega

set_option maxRecDepth 100000 in
/-- C6 witness: concrete gateway failure and success runs, plus both
sides of the preview rule on 1500- and 500-character texts. -/
theorem c6_gateway_failure_witness :
    (upload_syllabus envFalseS reqSyl).result =
      HResult.resp ⟨500, jerror msgFailedSyllabus⟩ ∧
    (upload_syllabus envOkS reqSyl).result =
      HResult.resp ⟨200, syllabusSuccessBody (envOkS.sanitize reqSyl.filename)
        (truncateWithEllipsis 500 tShort)⟩ ∧
    truncateWithEllipsis 500 tLong = pySliceTo tLong 500 ++ r"..." ∧
    truncateWithEllipsis 500 tShort = tShort := by
  have hf := c6_gateway_failure envFalseS reqSyl tShort rfl (by decide) (by decide) rfl rfl
  have ht := c6_gateway_failure envOkSLong reqSyl tLong rfl (by decide) (by decide) rfl rfl
  have hs := c6_gateway_failure envOkS reqSyl tShort rfl (by decide) (by decide) rfl rfl
  exact ⟨hf.1 rfl, hs.2.1 rfl, ht.2.2.1 (by decide), hs.2.2.2 (by decide)⟩

/-- C7: `POST /api/generate-content` with a missing or empty topic
returns 400 with error Topic is required and makes no gateway call; with
a non-empty topic and no content_type field, the gateway is called with
content type explanation and the 200 response carries success true and
content_type explanation. -/
theorem c7_generate_content_contract :
    (∀ (env : GenEnv) (d : ContentBody), d.topic = none ∨ d.topic = some emptyStr →
      generate_content env (some d) = ⟨HResult.resp ⟨400, jerror msgTopicRequired⟩, []⟩) ∧
    (∀ (env : GenEnv) (d : ContentBody) (tp res : String),
      d.topic = some tp → tp ≠ emptyStr → d.content_type = none →
      env.generate tp ((d.education_level).getD defEducationLevel)
          ((d.reference_material).getD emptyStr) defContentType = Except.ok res →
      generate_content env (some d) =
        ⟨HResult.resp ⟨200, [(kSuccess, JVal.b true), (kContent, JVal.s res),
           (kContentType, JVal.s defContentType)]⟩,
         [Effect.generate tp ((d.education_level).getD defEducationLevel)
            ((d.reference_material).getD emptyStr) defContentType]⟩) := by
  constructor
  · intro env d h
    rcases h with h | h <;> simp [generate_content, h]
  · intro env d tp res htp hne hct hg
    simp [generate_content, htp, hne, hct, hg]

/-- C7 witness: a missing topic, an empty topic, and a default
content_type generation, each on a concrete body. -/
theorem c7_generate_content_contract_witness :
    generate_content (okGen (r"lesson text")) (some ⟨none, none, none, none⟩) =
      ⟨HResult.resp ⟨400, jerror msgTopicRequired⟩, []⟩ ∧
    generate_content (okGen (r"lesson text")) (some ⟨some emptyStr, none, none, none⟩) =
      ⟨HResult.resp ⟨400, jerror msgTopicRequired⟩, []⟩ ∧
    generate_content (okGen (r"lesson text")) (some ⟨some (r"Photosynthesis"), none, none, none⟩) =
      ⟨HResult.resp ⟨200, [(kSuccess, JVal.b true), (kContent, JVal.s (r"lesson text")),
         (kContentType, JVal.s defContentType)]⟩,
       [Effect.generate (r"Photosynthesis") defEducationLevel emptyStr defContentType]⟩ :=
  ⟨c7_generate_content_contract.1 (okGen (r"lesson text")) _ (Or.inl rfl),
   c7_generate_content_contract.1 (okGen (r"lesson text")) _ (Or.inr rfl),
   c7_generate_content_contract.2 (okGen (r"lesson text")) _ _ _ rfl (by decide) rfl rfl⟩

/-- C10 witness: a null body raises on both routes, and a concrete parsed
body never yields an escaped exception. -/
theorem c10_null_body_precondition_witness :
    generate_content (okGen (r"lesson text")) none = ⟨HResult.raised msgNoneTypeGet, []⟩ ∧
    chat (⟨fun _ _ _ => Except.ok (r"an answer")⟩ : ChatEnv) none =
      ⟨HResult.raised msgNoneTypeGet, []⟩ ∧
    (generate_content (okGen (r"lesson text"))
        (some ⟨some (r"Photosynthesis"), none, none, none⟩)).result ≠
      HResult.raised msgNoneTypeGet ∧
    (chat (⟨fun _ _ _ => Except.ok (r"an answer")⟩ : ChatEnv)
        (some ⟨some (r"Why is the sky blue"), none, none⟩)).result ≠
      HResult.raised msgNoneTypeGet :=
  ⟨c10_null_body_precondition.1 (okGen (r"lesson text")),
   c10_null_body_precondition.2.1 ⟨fun _ _ _ => Except.ok (r"an answer")⟩,
   c10_null_body_precondition.2.2.1 (okGen (r"lesson text"))
     ⟨some (r"Photosynthesis"), none, none, none⟩ msgNoneTypeGet,
   c10_null_body_precondition.2.2.2 ⟨fun _ _ _ => Except.ok (r"an answer")⟩
     ⟨some (r"Why is the sky blue"), none, none⟩ msgNoneTypeGet⟩
